import Mathlib

/-!
Verification of `transfer_animation.py`, a Blender animation-transfer tool.

The tool consists of an embedded Blender job script (bone mapping,
frame-by-frame keyframe copy with location scaling, frame/bone-count
validation, in-process safety monitor) and an outer layer (job-script
builder, process supervisor with timeout/memory polling and
sentinel-based success classification, batch orchestration over many
source files).

The development below is a shallow embedding: each Python function or
loop relevant to the specification's claims is translated into an
executable Lean definition.  Python ints are `Int`/`Nat`, Python floats
are modelled as `ℚ`, Python strings as `String` or `List Char`, Python
dicts as insertion-ordered association lists with overwrite semantics.
-/

/-! ### Bone mapping (embedded script, lines 187-201)

```
bone_mapping = {}
source_bone_names = [bone.name for bone in source_armature.pose.bones]
target_bone_names = [bone.name for bone in target_armature.pose.bones]
for source_bone_name in source_bone_names:
    if source_bone_name in target_bone_names:
        bone_mapping[source_bone_name] = source_bone_name
```

A Python dict is modelled as an insertion-ordered association list;
`dictSet` is `d[k] = v` (overwrite in place if the key is present,
append otherwise). -/

def dictSet (m : List (String × String)) (k v : String) : List (String × String) :=
  if k ∈ m.map Prod.fst then
    m.map (fun p => if p.1 = k then (p.1, v) else p)
  else
    m ++ [(k, v)]

def mappingStep (target_bone_names : List String) (m : List (String × String))
    (source_bone_name : String) : List (String × String) :=
  if source_bone_name ∈ target_bone_names then dictSet m source_bone_name source_bone_name
  else m

def buildBoneMapping (source_bone_names target_bone_names : List String) :
    List (String × String) :=
  source_bone_names.foldl (mappingStep target_bone_names) []

/-! ### Per-frame transfer loop (embedded script, lines 209-287)

The pose the host exposes for a source bone after `scene.frame_set(frame)`
is abstracted as a function `srcPose : String → Int → PoseSample`.
One `TransferOp` records the complete effect of one iteration of the
inner bone loop: the three channel writes and the three
`keyframe_insert` calls at the given frame for the given target bone. -/

abbrev Vec3 := ℚ × ℚ × ℚ

abbrev Quat4 := ℚ × ℚ × ℚ × ℚ

structure PoseSample where
  location : Vec3
  rotation_quaternion : Quat4
  scale : Vec3
deriving DecidableEq

def scaleVec (s : ℚ) (v : Vec3) : Vec3 := (s * v.1, s * v.2.1, s * v.2.2)

structure TransferOp where
  frame : Int
  bone : String
  location : Vec3
  rotation_quaternion : Quat4
  scale : Vec3
deriving DecidableEq

/-- `range(start_frame, end_frame + 1)` — the frames visited by the copy
loop, in increasing order (empty when `end_frame < start_frame`). -/
def frameList (start_frame end_frame : Int) : List Int :=
  (List.range (end_frame - start_frame + 1).toNat).map (fun (i : Nat) => start_frame + (i : Int))

/-- One iteration of the outer frame loop: for every mapping entry, the
inner loop re-checks membership of both names in the rigs' pose bones and,
if both hold, writes `location * scale_factor`, the source rotation and
the source scale to the target bone, keyframing all three channels. -/
def transferFrame (mapping : List (String × String))
    (source_bone_names target_bone_names : List String)
    (srcPose : String → Int → PoseSample) (scale_factor : ℚ) (frame : Int) :
    List TransferOp :=
  mapping.filterMap (fun pair =>
    if pair.2 ∈ target_bone_names ∧ pair.1 ∈ source_bone_names then
      some { frame := frame
             bone := pair.2
             location := scaleVec scale_factor (srcPose pair.1 frame).location
             rotation_quaternion := (srcPose pair.1 frame).rotation_quaternion
             scale := (srcPose pair.1 frame).scale }
    else none)

/-- For one bone pair, the operation written by the inner loop body. -/
def mkTransferOp (srcPose : String → Int → PoseSample) (scale_factor : ℚ)
    (frame : Int) (pair : String × String) : TransferOp :=
  { frame := frame
    bone := pair.2
    location := scaleVec scale_factor (srcPose pair.1 frame).location
    rotation_quaternion := (srcPose pair.1 frame).rotation_quaternion
    scale := (srcPose pair.1 frame).scale }

structure TransferRunResult where
  ops : List TransferOp
  keyframes_copied : Nat
  action_frame_range : Int × Int
  scene_frame_range : Int × Int
deriving DecidableEq

/-- Lines 225-287 of the embedded script: widen the scene frame range to
`[start_frame, end_frame]`, run the double loop over frames and mapped
bones, and finally set the new action's frame-range metadata to exactly
`(start_frame, end_frame)`. -/
def run_transfer (mapping : List (String × String))
    (source_bone_names target_bone_names : List String)
    (srcPose : String → Int → PoseSample) (scale_factor : ℚ)
    (start_frame end_frame : Int) : TransferRunResult :=
  { ops := (frameList start_frame end_frame).flatMap
      (transferFrame mapping source_bone_names target_bone_names srcPose scale_factor)
    keyframes_copied := ((frameList start_frame end_frame).flatMap
      (transferFrame mapping source_bone_names target_bone_names srcPose scale_factor)).length
    action_frame_range := (start_frame, end_frame)
    scene_frame_range := (start_frame, end_frame) }

/-! ### Frame-count and bone-count validation (embedded script,
lines 191-195 and 216-221)

```
if len(source_bone_names) > MAX_BONES or len(target_bone_names) > MAX_BONES:
    print("WARNING: ...")
    if len(source_bone_names) > MAX_BONES * 2 or len(target_bone_names) > MAX_BONES * 2:
        print("ERROR: Too many bones for safe processing")
        return False

frame_count = end_frame - start_frame + 1
if frame_count > MAX_FRAME_RANGE:
    print("WARNING: Large frame range ...")
    if frame_count > MAX_FRAME_RANGE * 2:
        print("ERROR: Frame range too large")
        return False
```

`passed = false` corresponds to the `return False` (the
`FrameRangeTooLarge` / `TooManyBones` conditions of the spec taxonomy);
`warned` records whether the WARNING line was printed. -/

structure ValidationOutcome where
  passed : Bool
  warned : Bool
deriving DecidableEq

def validate_frame_count (frame_count max_frames : Int) : ValidationOutcome :=
  if frame_count > max_frames then
    if frame_count > max_frames * 2 then ⟨false, true⟩ else ⟨true, true⟩
  else ⟨true, false⟩

def validate_bone_counts (n_source n_target max_bones : Int) : ValidationOutcome :=
  if n_source > max_bones ∨ n_target > max_bones then
    if n_source > max_bones * 2 ∨ n_target > max_bones * 2 then ⟨false, true⟩ else ⟨true, true⟩
  else ⟨true, false⟩

/-! ### In-process memory check (embedded script, lines 56-64)

```
def check_memory(self, max_mb=MAX_MEMORY_MB):
    try:  # (the import of psutil happens here, inside the try)
        process = psutil.Process()
        memory_mb = process.memory_info().rss / 1024 / 1024
        if memory_mb > max_mb:
            raise RuntimeError("Memory usage exceeded ...")
    except ImportError:
        pass
```

`measured_mb = none` models the `ImportError` path (memory introspection
unavailable); `some m` models a successful measurement of `m` MB. -/

def check_memory (measured_mb : Option ℚ) (max_mb : ℚ) : Except String Unit :=
  match measured_mb with
  | some m => if m > max_mb then Except.error ("MemoryExceeded") else Except.ok ()
  | none => Except.ok ()

/-! ### Supervisor memory polling (lines 462-480)

```
try:
    proc_info = psutil.Process(process.pid)
    memory_mb = proc_info.memory_info().rss / 1024 / 1024
    if memory_mb > args.max_memory:
        ... terminate/kill ...
        return False
except (psutil.NoSuchProcess, psutil.AccessDenied):
    pass
```
-/

inductive MemPollReading where
  | measured (mb : ℚ)
  | noSuchProcess
  | accessDenied
deriving DecidableEq

inductive PollDecision where
  | killProcess
  | continuePolling
deriving DecidableEq

def poll_memory (reading : MemPollReading) (max_memory : ℚ) : PollDecision :=
  match reading with
  | .measured mb => if mb > max_memory then .killProcess else .continuePolling
  | .noSuchProcess => .continuePolling
  | .accessDenied => .continuePolling

/-! ### Supervisor run classification and output cleanup
(`process_single_transfer`, lines 452-502)

The monitoring loop ends in one of three ways: a wall-clock timeout
(`return False` at line 461, with no cleanup), a memory kill
(`return False` at line 474, with no cleanup), or a natural exit, after
which the run is classified by

```
if process.returncode == 0 and "RESULT: SUCCESS" in stdout:
    return True
else:
    if os.path.exists(output_file):
        os.remove(output_file)
    return False
```

`outputExists` models `os.path.exists(output_file)` at classification
time; `outputDeleted` records whether `os.remove(output_file)` ran. -/

def successSentinel : List Char := ("RESULT: SUCCESS").data

def classify_run (returncode : Int) (stdout : List Char) : Bool :=
  (returncode == 0) && decide (successSentinel <:+: stdout)

inductive RunOutcome where
  | timedOut
  | memoryKilled
  | natural (returncode : Int) (stdout : List Char)
deriving DecidableEq

structure SupervisionResult where
  success : Bool
  outputDeleted : Bool
deriving DecidableEq

def superviseOutcome (outcome : RunOutcome) (outputExists : Bool) : SupervisionResult :=
  match outcome with
  | .timedOut => ⟨false, false⟩
  | .memoryKilled => ⟨false, false⟩
  | .natural returncode stdout =>
    if classify_run returncode stdout then ⟨true, false⟩
    else ⟨false, outputExists⟩

/-! ### Batch loop (`main`, lines 567-589 and 607)

```
results = {}
successful = 0
for source_file in source_files:
    try:
        success = process_single_transfer(source_file, args.target, args)
        results[source_file] = success
        if success:
            successful += 1
        elif not args.continue_on_error:
            break
    except KeyboardInterrupt:
        break
    except Exception as e:
        results[source_file] = False
        if not args.continue_on_error:
            break
...
sys.exit(0 if successful == len(results) else 1)
```

The per-file outcome of `process_single_transfer` is abstracted as a
function `outcome : String → FileOutcome`: it returns `True`
(`.success`), returns `False` (`.fail`), raises an ordinary exception
(`.raiseExc`), or is interrupted by `KeyboardInterrupt` (`.interrupt`).
`runBatch` is the `results` dict at the end of the loop;
`attemptedFiles` is the list of files for which
`process_single_transfer` was invoked. -/

inductive FileOutcome where
  | success
  | fail
  | raiseExc
  | interrupt
deriving DecidableEq

def runBatch (files : List String) (outcome : String → FileOutcome)
    (continue_on_error : Bool) : List (String × Bool) :=
  match files with
  | [] => []
  | f :: rest =>
    match outcome f with
    | .success => (f, true) :: runBatch rest outcome continue_on_error
    | .fail =>
      (f, false) :: (if continue_on_error then runBatch rest outcome continue_on_error else [])
    | .raiseExc =>
      (f, false) :: (if continue_on_error then runBatch rest outcome continue_on_error else [])
    | .interrupt => []

def attemptedFiles (files : List String) (outcome : String → FileOutcome)
    (continue_on_error : Bool) : List String :=
  match files with
  | [] => []
  | f :: rest =>
    f :: (match outcome f with
      | .success => attemptedFiles rest outcome continue_on_error
      | .fail => if continue_on_error then attemptedFiles rest outcome continue_on_error else []
      | .raiseExc =>
        if continue_on_error then attemptedFiles rest outcome continue_on_error else []
      | .interrupt => [])

/-- `successful` at line 607: the number of recorded `True` results. -/
def successfulCount (files : List String) (outcome : String → FileOutcome)
    (continue_on_error : Bool) : Nat :=
  (runBatch files outcome continue_on_error).countP (fun r => r.2)

/-- `sys.exit(0 if successful == len(results) else 1)`. -/
def batchExitCode (files : List String) (outcome : String → FileOutcome)
    (continue_on_error : Bool) : Int :=
  if successfulCount files outcome continue_on_error
      = (runBatch files outcome continue_on_error).length then 0 else 1

/-! ### Job-script builder (`create_blender_script`, lines 23-334)

The Python function is one f-string template with exactly five
interpolation holes, in this order: `{max_frames}`, `{max_bones}`,
`{max_memory_mb}`, `{source_blend}`, `{scale_factor}`.  The six literal
pieces between the holes are transcribed verbatim below (doubled braces
of the f-string are unescaped to the single braces the host sees;
double quotes, single quotes and braces are written with `\xNN`
escapes).  The path hole sits inside a Python raw-string literal:
`source_file = r"{source_blend}"`.  Python floats are modelled as `ℚ`
and ints as `Int`; the source's defaults are `scale_factor = 0.7`,
`max_frames = 10000`, `max_bones = 1000`, `max_memory_mb = 4096`. -/

def scriptChunk0 : String :=
  String.join [
    "\n",
    "i",
    "mport bpy\n",
    "i",
    "mport bmesh\n",
    "i",
    "mport mathutils\n",
    "from mathutils import Vector, Matrix, Euler\n",
    "i",
    "mport os\n",
    "i",
    "mport sys\n",
    "i",
    "mport time\n",
    "i",
    "mport gc\n",
    "\n",
    "# Safety configuration\n",
    "MAX_FRAME_RANGE = "
  ]

def scriptChunk1 : String :=
  String.join [
    "\n",
    "MAX_BONES = "
  ]

def scriptChunk2 : String :=
  String.join [
    "\n",
    "MAX_MEMORY_MB = "
  ]

def scriptChunk3head : String :=
  String.join [
    "\n",
    "PROGRESS_INTERVAL = 100\n",
    "\n",
    "class SafetyMonitor:\n",
    "    def __init__(self):\n",
    "        self.start_time = time.time()\n",
    "        self.last_progress = time.time()\n",
    "        self.frame_count = 0\n",
    "        self.bone_count = 0\n",
    "    \n",
    "    def check_timeout(self, max_seconds=300):\n",
    "        elapsed = time.time() - self.start_time\n",
    "        if elapsed > max_seconds:\n",
    "            raise RuntimeError(f\x22Operation timed out after \x7belapsed:.1f\x7d seconds\x22)\n",
    "    \n",
    "    def check_memory(self, max_mb=MAX_MEMORY_MB):\n",
    "        try:\n",
    "            import psutil\n",
    "            process = psutil.Process()\n",
    "            memory_mb = process.memory_info().rss / 1024 / 1024\n",
    "            if memory_mb > max_mb:\n",
    "                raise RuntimeError(f\x22Memory usage exceeded \x7bmax_mb\x7dMB (current: \x7bmemory_mb:.1f\x7dMB)\x22)\n",
    "        except ImportError:\n",
    "            pass\n",
    "    \n",
    "    def check_progress(self, current_frame=None):\n",
    "        now = time.time()\n",
    "        if now - self.last_progress > 30:\n",
    "            raise RuntimeError(\x22Operation appears to be stuck (no progress for 30 seconds)\x22)\n",
    "        \n",
    "        if current_frame is not None:\n",
    "            self.frame_count += 1\n",
    "            if self.frame_count % PROGRESS_INTERVAL == 0:\n",
    "                print(f\x22Processed frame \x7bcurrent_frame\x7d (\x7bself.frame_count\x7d total frames)\x22)\n",
    "                self.last_progress = now\n",
    "                gc.collect()\n",
    "    \n",
    "    def update_progress(self):\n",
    "        self.last_progress = time.time()\n",
    "\n",
    "def main():\n",
    "    print(\x22=== Blender Animation Transfer Started ===\x22)\n",
    "    \n",
    "    monitor = SafetyMonitor()\n"
  ]

/-- The opening of the raw-string literal that receives the source path:
`source_file = r"`. -/
def sourceFileMarker : String := "    source_file = r\x22"

def scriptChunk3 : String := scriptChunk3head ++ sourceFileMarker

def scriptChunk4tail : String := "\n    scale_factor = "

/-- The text directly after the interpolated source path: the closing
quote of the raw-string literal, then the `scale_factor` assignment. -/
def scriptChunk4 : String := "\x22" ++ scriptChunk4tail

def scriptChunk5 : String :=
  String.join [
    "\n",
    "    \n",
    "    print(f\x22Source file: \x7bsource_file\x7d\x22)\n",
    "    print(f\x22Scale factor: \x7bscale_factor\x7d\x22)\n",
    "    \n",
    "    try:\n",
    "        # Find target armature\n",
    "        monitor.check_timeout()\n",
    "        monitor.check_memory()\n",
    "        \n",
    "        target_armature = None\n",
    "        for obj in bpy.context.scene.objects:\n",
    "            if obj.type == \x27ARMATURE\x27:\n",
    "                target_armature = obj\n",
    "                break\n",
    "        \n",
    "        if not target_armature:\n",
    "            print(\x22ERROR: No target armature found!\x22)\n",
    "            return False\n",
    "        \n",
    "        print(f\x22Target armature: \x7btarget_armature.name\x7d\x22)\n",
    "        monitor.update_progress()\n",
    "        \n",
    "        # Append source data\n",
    "        print(\x22Appending source armature and animations...\x22)\n",
    "        monitor.check_timeout()\n",
    "        \n",
    "        with bpy.data.libraries.load(source_file, link=False) as (data_from, data_to):\n",
    "            data_to.objects = data_from.objects\n",
    "            data_to.actions = data_from.actions\n",
    "            data_to.armatures = data_from.armatures\n",
    "        \n",
    "        monitor.update_progress()\n",
    "        \n",
    "        # Find source armature\n",
    "        source_armature = None\n",
    "        imported_objects = []\n",
    "        \n",
    "        for obj in bpy.data.objects:\n",
    "            monitor.check_timeout()\n",
    "            if obj.name not in bpy.context.scene.objects:\n",
    "                bpy.context.scene.collection.objects.link(obj)\n",
    "                imported_objects.append(obj)\n",
    "                \n",
    "                if obj.type == \x27ARMATURE\x27 and obj != target_armature:\n",
    "                    source_armature = obj\n",
    "                    print(f\x22Found source armature: \x7bobj.name\x7d\x22)\n",
    "        \n",
    "        if not source_armature:\n",
    "            print(\x22ERROR: No source armature found!\x22)\n",
    "            return False\n",
    "        \n",
    "        monitor.update_progress()\n",
    "        \n",
    "        # Get animation data\n",
    "        if not source_armature.animation_data or not source_armature.animation_data.action:\n",
    "            print(\x22ERROR: No animation data found!\x22)\n",
    "            available_actions = [action for action in bpy.data.actions]\n",
    "            print(f\x22Available actions: \x7b[a.name for a in available_actions]\x7d\x22)\n",
    "            \n",
    "            if available_actions:\n",
    "                if not source_armature.animation_data:\n",
    "                    source_armature.animation_data_create()\n",
    "                source_armature.animation_data.action = available_actions[0]\n",
    "                print(f\x22Assigned action: \x7bavailable_actions[0].name\x7d\x22)\n",
    "            else:\n",
    "                return False\n",
    "        \n",
    "        source_action = source_armature.animation_data.action\n",
    "        print(f\x22Source action: \x7bsource_action.name\x7d\x22)\n",
    "        \n",
    "        # Show source action frame range info\n",
    "        if source_action.frame_range:\n",
    "            src_start, src_end = source_action.frame_range\n",
    "            print(f\x22Source action frame range: \x7bint(src_start)\x7d to \x7bint(src_end)\x7d (\x7bint(src_end - src_start + 1)\x7d frames)\x22)\n",
    "        else:\n",
    "            print(\x22Source action has no explicit frame range, using scene range\x22)\n",
    "        \n",
    "        monitor.update_progress()\n",
    "        \n",
    "        # Create target action\n",
    "        target_action_name = f\x22\x7bsource_action.name\x7d_scaled\x22\n",
    "        target_action = bpy.data.actions.new(target_action_name)\n",
    "        \n",
    "        if not target_armature.animation_data:\n",
    "            target_armature.animation_data_create()\n",
    "        \n",
    "        target_armature.animation_data.action = target_action\n",
    "        print(f\x22Created target action: \x7btarget_action_name\x7d\x22)\n",
    "        monitor.update_progress()\n",
    "        \n",
    "        # Set pose mode\n",
    "        bpy.context.view_layer.objects.active = target_armature\n",
    "        bpy.ops.object.mode_set(mode=\x27POSE\x27)\n",
    "        monitor.update_progress()\n",
    "        \n",
    "        # Create bone mapping\n",
    "        print(\x22Creating bone mapping...\x22)\n",
    "        monitor.check_timeout()\n",
    "        monitor.check_memory()\n",
    "        \n",
    "        bone_mapping = \x7b\x7d\n",
    "        source_bone_names = [bone.name for bone in source_armature.pose.bones]\n",
    "        target_bone_names = [bone.name for bone in target_armature.pose.bones]\n",
    "        \n",
    "        if len(source_bone_names) > MAX_BONES or len(target_bone_names) > MAX_BONES:\n",
    "            print(f\x22WARNING: Large number of bones (Source: \x7blen(source_bone_names)\x7d, Target: \x7blen(target_bone_names)\x7d)\x22)\n",
    "            if len(source_bone_names) > MAX_BONES * 2 or len(target_bone_names) > MAX_BONES * 2:\n",
    "                print(\x22ERROR: Too many bones for safe processing\x22)\n",
    "                return False\n",
    "        \n",
    "        for source_bone_name in source_bone_names:\n",
    "            monitor.check_timeout()\n",
    "            if source_bone_name in target_bone_names:\n",
    "                bone_mapping[source_bone_name] = source_bone_name\n",
    "        \n",
    "        print(f\x22Bone mapping created: \x7blen(bone_mapping)\x7d bones mapped\x22)\n",
    "        \n",
    "        # Copy keyframes with scaling\n",
    "        print(\x22Copying and scaling keyframes...\x22)\n",
    "        monitor.check_timeout()\n",
    "        monitor.check_memory()\n",
    "        \n",
    "        if source_action.frame_range:\n",
    "            start_frame = int(source_action.frame_range[0])\n",
    "            end_frame = int(source_action.frame_range[1])\n",
    "        else:\n",
    "            start_frame = bpy.context.scene.frame_start\n",
    "            end_frame = bpy.context.scene.frame_end\n",
    "        \n",
    "        frame_count = end_frame - start_frame + 1\n",
    "        if frame_count > MAX_FRAME_RANGE:\n",
    "            print(f\x22WARNING: Large frame range: \x7bframe_count\x7d frames\x22)\n",
    "            if frame_count > MAX_FRAME_RANGE * 2:\n",
    "                print(\x22ERROR: Frame range too large\x22)\n",
    "                return False\n",
    "        \n",
    "        print(f\x22Processing frames \x7bstart_frame\x7d to \x7bend_frame\x7d (\x7bframe_count\x7d frames)\x22)\n",
    "        \n",
    "        # IMPORTANT: Extend target scene frame range to match source animation\n",
    "        original_start = bpy.context.scene.frame_start\n",
    "        original_end = bpy.context.scene.frame_end\n",
    "        \n",
    "        print(f\x22Original scene range: \x7boriginal_start\x7d to \x7boriginal_end\x7d\x22)\n",
    "        \n",
    "        # Set scene frame range to accommodate the full animation\n",
    "        bpy.context.scene.frame_start = start_frame\n",
    "        bpy.context.scene.frame_end = end_frame\n",
    "        \n",
    "        print(f\x22Extended scene range to: \x7bstart_frame\x7d to \x7bend_frame\x7d\x22)\n",
    "        \n",
    "        keyframes_copied = 0\n",
    "        bones_per_frame = len(bone_mapping)\n",
    "        total_operations = frame_count * bones_per_frame\n",
    "        \n",
    "        print(f\x22Total operations: \x7btotal_operations:,\x7d\x22)\n",
    "        \n",
    "        for frame_idx, frame in enumerate(range(start_frame, end_frame + 1)):\n",
    "            monitor.check_timeout(max_seconds=600)\n",
    "            monitor.check_progress(frame)\n",
    "            \n",
    "            if frame_idx % 100 == 0:\n",
    "                monitor.check_memory()\n",
    "                progress_pct = (frame_idx / frame_count) * 100\n",
    "                print(f\x22Progress: \x7bprogress_pct:.1f\x7d% (Frame \x7bframe\x7d/\x7bend_frame\x7d)\x22)\n",
    "            \n",
    "            bpy.context.scene.frame_set(frame)\n",
    "            \n",
    "            for bone_idx, (source_bone_name, target_bone_name) in enumerate(bone_mapping.items()):\n",
    "                if bone_idx % 50 == 0:\n",
    "                    monitor.check_timeout(max_seconds=600)\n",
    "                \n",
    "                if (target_bone_name in target_armature.pose.bones and \n",
    "                    source_bone_name in source_armature.pose.bones):\n",
    "                    \n",
    "                    source_bone = source_armature.pose.bones[source_bone_name]\n",
    "                    target_bone = target_armature.pose.bones[target_bone_name]\n",
    "                    \n",
    "                    # Scale location\n",
    "                    scaled_location = source_bone.location.copy()\n",
    "                    scaled_location *= scale_factor\n",
    "                    target_bone.location = scaled_location\n",
    "                    target_bone.keyframe_insert(data_path=\x22location\x22, frame=frame)\n",
    "                    \n",
    "                    # Copy rotation\n",
    "                    target_bone.rotation_quaternion = source_bone.rotation_quaternion.copy()\n",
    "                    target_bone.keyframe_insert(data_path=\x22rotation_quaternion\x22, frame=frame)\n",
    "                    \n",
    "                    # Copy scale\n",
    "                    target_bone.scale = source_bone.scale.copy()\n",
    "                    target_bone.keyframe_insert(data_path=\x22scale\x22, frame=frame)\n",
    "                    \n",
    "                    keyframes_copied += 1\n",
    "            \n",
    "            if frame_idx % 500 == 0:\n",
    "                gc.collect()\n",
    "        \n",
    "        print(f\x22\u2713 Copied and scaled \x7bkeyframes_copied:,\x7d keyframes\x22)\n",
    "        \n",
    "        # Update target action frame range to match what we just created\n",
    "        target_action.frame_range = (start_frame, end_frame)\n",
    "        print(f\x22Set target action frame range: \x7bstart_frame\x7d to \x7bend_frame\x7d\x22)\n",
    "        \n",
    "        # Cleanup\n",
    "        print(\x22Cleaning up...\x22)\n",
    "        monitor.check_timeout()\n",
    "        \n",
    "        bpy.ops.object.mode_set(mode=\x27OBJECT\x27)\n",
    "        \n",
    "        for obj in imported_objects:\n",
    "            monitor.check_timeout()\n",
    "            bpy.data.objects.remove(obj, do_unlink=True)\n",
    "        \n",
    "        print(\x22=== Animation Transfer Completed Successfully ===\x22)\n",
    "        print(f\x22New action created: \x7btarget_action_name\x7d\x22)\n",
    "        print(f\x22Total processing time: \x7btime.time() - monitor.start_time:.1f\x7d seconds\x22)\n",
    "        print(\x22RESULT: SUCCESS\x22)\n",
    "        return True\n",
    "    \n",
    "    except RuntimeError as e:\n",
    "        print(f\x22SAFETY ERROR: \x7be\x7d\x22)\n",
    "        print(\x22RESULT: FAILED\x22)\n",
    "        return False\n",
    "    except MemoryError:\n",
    "        print(\x22ERROR: Out of memory\x22)\n",
    "        print(\x22RESULT: FAILED\x22)\n",
    "        return False\n",
    "    except Exception as e:\n",
    "        print(f\x22UNEXPECTED ERROR: \x7be\x7d\x22)\n",
    "        import traceback\n",
    "        traceback.print_exc()\n",
    "        print(\x22RESULT: FAILED\x22)\n",
    "        return False\n",
    "    finally:\n",
    "        try:\n",
    "            bpy.ops.object.mode_set(mode=\x27OBJECT\x27)\n",
    "        except:\n",
    "            pass\n",
    "\n",
    "if __name__ == \x22__main__\x22:\n",
    "    success = main()\n",
    "    if success:\n",
    "        bpy.ops.wm.save_as_mainfile(filepath=bpy.data.filepath)\n",
    "        sys.exit(0)\n",
    "    else:\n",
    "        sys.exit(1)\n",
    ""
  ]

def create_blender_script (source_blend : String) (scale_factor : ℚ)
    (max_frames max_bones max_memory_mb : Int) : String :=
  scriptChunk0 ++ toString max_frames ++ scriptChunk1 ++ toString max_bones ++
    scriptChunk2 ++ toString max_memory_mb ++ scriptChunk3 ++ source_blend ++
    scriptChunk4 ++ toString scale_factor ++ scriptChunk5

/-- The part of the job script strictly before the interpolated source
path; it ends with the opening of the raw-string literal,
`source_file = r"`. -/
def scriptBeforePath (max_frames max_bones max_memory_mb : Int) : String :=
  scriptChunk0 ++ toString max_frames ++ scriptChunk1 ++ toString max_bones ++
    scriptChunk2 ++ toString max_memory_mb ++ scriptChunk3

/-- The part of the job script from the interpolated source path on: the
path itself, then the closing quote of the raw-string literal and the
rest of the template. -/
def scriptFromPath (source_blend : String) (scale_factor : ℚ) : String :=
  source_blend ++ scriptChunk4 ++ toString scale_factor ++ scriptChunk5

def dquoteChar : Char := Char.ofNat 34

def backslashChar : Char := Char.ofNat 92

mutual

/-- The host's tokenizer for a Python raw-string literal body: reading
after the opening `r"`, an (unescaped) double quote terminates the
literal; a backslash never escapes its way out but keeps the following
character in the value (raw-string semantics: `\"` does not terminate
the literal and contributes both characters). -/
def rawStringScan : List Char → List Char
  | [] => []
  | c :: rest =>
    if c = dquoteChar then []
    else if c = backslashChar then c :: rawStringEscaped rest
    else c :: rawStringScan rest

def rawStringEscaped : List Char → List Char
  | [] => []
  | d :: rest => d :: rawStringScan rest

end

/-- The value the host's parser assigns to `source_file`: the raw-string
literal read from just after `source_file = r"`, i.e. from the start of
the interpolated path to the next terminating quote. -/
def pathReadByHost (source_blend : String) (scale_factor : ℚ) : List Char :=
  rawStringScan (scriptFromPath source_blend scale_factor).data

/-- Paths that survive raw-string quoting untouched: no double quote and
no backslash. -/
def pathSafeForRawString (source_blend : String) : Prop :=
  ∀ c ∈ source_blend.data, c ≠ dquoteChar ∧ c ≠ backslashChar

instance (p : String) : Decidable (pathSafeForRawString p) := by
  unfold pathSafeForRawString; infer_instance

/-! ### Concrete instances used in witnesses and counterexamples -/

def demoSourceBones : List String := ["hips", "spine", "src_only"]

def demoTargetBones : List String := ["hips", "spine", "tgt_only"]

def demoPose : String → Int → PoseSample :=
  fun _ frame =>
    { location := ((frame : ℚ), 2, 3)
      rotation_quaternion := (1, 0, 0, 0)
      scale := (1, 1, 1) }

def demoBatchOutcome : String → FileOutcome :=
  fun f =>
    if f = "a.blend" then FileOutcome.success
    else if f = "b.blend" then FileOutcome.fail
    else FileOutcome.success

def demoInterruptOutcome : String → FileOutcome :=
  fun f => if f = "b.blend" then FileOutcome.interrupt else FileOutcome.success

/-! ### Supporting lemmas -/

lemma rawStringScan_clean (l : List Char) :
    ∀ rest : List Char, (∀ c ∈ l, c ≠ dquoteChar ∧ c ≠ backslashChar) →
      rawStringScan (l ++ dquoteChar :: rest) = l := by
  induction l with
  | nil => intro rest _; simp [rawStringScan]
  | cons c l ih =>
    intro rest h
    obtain ⟨h1, h2⟩ := h c (List.mem_cons_self c l)
    simp [rawStringScan, h1, h2, ih rest (fun d hd => h d (List.mem_cons_of_mem c hd))]

lemma script_decomposition (p : String) (sf : ℚ) (mf mb mm : Int) :
    create_blender_script p sf mf mb mm = scriptBeforePath mf mb mm ++ scriptFromPath p sf := by
  simp [create_blender_script, scriptBeforePath, scriptFromPath, String.ext_iff,
    String.data_append, List.append_assoc]

/-! ### Structural lemmas about the bone mapping and the copy loop -/

lemma dictSet_of_not_mem (m : List (String × String)) (k v : String)
    (h : k ∉ m.map Prod.fst) : dictSet m k v = m ++ [(k, v)] := by
  simp [dictSet, h]

lemma foldl_mappingStep_closed (T : List String) :
    ∀ (S : List String) (acc : List (String × String)), S.Nodup →
      (∀ n ∈ S, n ∉ acc.map Prod.fst) →
      S.foldl (mappingStep T) acc
        = acc ++ (S.filter (fun n => decide (n ∈ T))).map (fun n => (n, n)) := by
  intro S
  induction S with
  | nil => intro acc _ _; simp
  | cons n S ih =>
    intro acc hnd hdisj
    have hnS : n ∉ S := (List.nodup_cons.mp hnd).1
    have hS : S.Nodup := (List.nodup_cons.mp hnd).2
    by_cases hT : n ∈ T
    · have hstep : mappingStep T acc n = acc ++ [(n, n)] := by
        simp [mappingStep, hT,
          dictSet_of_not_mem acc n n (hdisj n (List.mem_cons_self n S))]
      have hdisj2 : ∀ m ∈ S, m ∉ (acc ++ [(n, n)]).map Prod.fst := by
        intro m hm
        simp only [List.map_append, List.mem_append, List.map_cons, List.map_nil,
          List.mem_singleton, not_or]
        exact ⟨hdisj m (List.mem_cons_of_mem n hm), fun hmn => hnS (hmn ▸ hm)⟩
      simp only [List.foldl_cons, hstep, ih (acc ++ [(n, n)]) hS hdisj2]
      simp [hT]
    · have hstep : mappingStep T acc n = acc := by simp [mappingStep, hT]
      have hdisj2 : ∀ m ∈ S, m ∉ acc.map Prod.fst :=
        fun m hm => hdisj m (List.mem_cons_of_mem n hm)
      simp only [List.foldl_cons, hstep, ih acc hS hdisj2]
      simp [hT]

/-- Closed form of the bone mapping when source bone names are distinct
(bone names within one rig are unique): the mapping pairs every name
present in both rigs with itself, in source order. -/
lemma buildBoneMapping_eq (S T : List String) (hS : S.Nodup) :
    buildBoneMapping S T = (S.filter (fun n => decide (n ∈ T))).map (fun n => (n, n)) := by
  simpa using foldl_mappingStep_closed T S [] hS (by simp)

lemma mapping_keys (S T : List String) (hS : S.Nodup) :
    (buildBoneMapping S T).map Prod.fst = S.filter (fun n => decide (n ∈ T)) := by
  simp [buildBoneMapping_eq S T hS, List.map_map, Function.comp_def]

lemma mapping_mem_keys (S T : List String) (hS : S.Nodup) (k : String) :
    k ∈ (buildBoneMapping S T).map Prod.fst ↔ k ∈ S ∧ k ∈ T := by
  rw [mapping_keys S T hS]
  simp

lemma mapping_entry (S T : List String) (hS : S.Nodup) (p : String × String)
    (hp : p ∈ buildBoneMapping S T) : p.2 = p.1 ∧ p.1 ∈ S ∧ p.1 ∈ T := by
  rw [buildBoneMapping_eq S T hS] at hp
  simp only [List.mem_map, List.mem_filter, decide_eq_true_eq] at hp
  obtain ⟨n, ⟨hnS, hnT⟩, rfl⟩ := hp
  exact ⟨rfl, hnS, hnT⟩

lemma mapping_keys_nodup (S T : List String) (hS : S.Nodup) :
    ((buildBoneMapping S T).map Prod.fst).Nodup := by
  rw [mapping_keys S T hS]
  exact hS.filter _

lemma filterMap_if_of_forall {α β : Type} (l : List α) (g : α → β) (p : α → Prop)
    [DecidablePred p] (h : ∀ a ∈ l, p a) :
    l.filterMap (fun a => if p a then some (g a) else none) = l.map g := by
  induction l with
  | nil => simp
  | cons a l ih =>
    rw [List.filterMap_cons, if_pos (h a (List.mem_cons_self a l)), List.map_cons,
      ih (fun b hb => h b (List.mem_cons_of_mem a hb))]

/-- When the mapping was built from the two rigs' own bone-name lists,
the defensive membership re-check inside the inner loop always succeeds:
the frame's iteration writes exactly one operation per mapping entry. -/
lemma transferFrame_eq_map (S T : List String) (hS : S.Nodup)
    (srcPose : String → Int → PoseSample) (scale_factor : ℚ) (frame : Int) :
    transferFrame (buildBoneMapping S T) S T srcPose scale_factor frame
      = (buildBoneMapping S T).map (mkTransferOp srcPose scale_factor frame) := by
  unfold transferFrame
  exact filterMap_if_of_forall (buildBoneMapping S T) (mkTransferOp srcPose scale_factor frame)
    (fun pair => pair.2 ∈ T ∧ pair.1 ∈ S)
    (fun pair hp => by
      obtain ⟨h2, h1, hT⟩ := mapping_entry S T hS pair hp
      exact ⟨h2 ▸ hT, h1⟩)

lemma countP_flatMap {α β : Type} (l : List α) (g : α → List β) (p : β → Bool) :
    (l.flatMap g).countP p = (l.map (fun a => (g a).countP p)).sum := by
  induction l with
  | nil => simp
  | cons a l ih => simp [List.countP_append, ih]

lemma sum_map_ite_count (l : List Int) (x : Int) :
    (l.map (fun a => if a = x then (1 : Nat) else 0)).sum = l.count x := by
  induction l with
  | nil => simp
  | cons a l ih =>
    simp only [List.map_cons, List.sum_cons, ih, List.count_cons, beq_iff_eq]
    by_cases h : a = x
    · simp [h, Nat.add_comm]
    · simp [h, Ne.symm h]

lemma sum_map_const {α : Type} (l : List α) (c : Nat) :
    (l.map (fun _ => c)).sum = l.length * c := by
  rw [List.map_const', List.sum_replicate, smul_eq_mul]

lemma frameList_length (start_frame end_frame : Int) :
    (frameList start_frame end_frame).length = (end_frame - start_frame + 1).toNat := by
  simp [frameList]

lemma frameList_nodup (start_frame end_frame : Int) : (frameList start_frame end_frame).Nodup := by
  refine List.Nodup.map ?_ (List.nodup_range _)
  intro i j hij
  exact Nat.cast_injective (R := ℤ) (add_left_cancel hij)

lemma frameList_mem (start_frame end_frame f : Int) :
    f ∈ frameList start_frame end_frame ↔ start_frame ≤ f ∧ f ≤ end_frame := by
  simp only [frameList, List.mem_map, List.mem_range]
  constructor
  · rintro ⟨i, hi, rfl⟩; omega
  · intro ⟨h1, h2⟩
    exact ⟨(f - start_frame).toNat, by omega, by omega⟩

lemma transfer_ops_eq (S T : List String) (hS : S.Nodup)
    (srcPose : String → Int → PoseSample) (scale_factor : ℚ) (start_frame end_frame : Int) :
    (run_transfer (buildBoneMapping S T) S T srcPose scale_factor start_frame end_frame).ops
      = (frameList start_frame end_frame).flatMap
          (fun f => (buildBoneMapping S T).map (mkTransferOp srcPose scale_factor f)) := by
  show (frameList start_frame end_frame).flatMap
      (fun f => transferFrame (buildBoneMapping S T) S T srcPose scale_factor f) = _
  simp only [transferFrame_eq_map S T hS srcPose scale_factor]

lemma transfer_ops_length (S T : List String) (hS : S.Nodup)
    (srcPose : String → Int → PoseSample) (scale_factor : ℚ) (start_frame end_frame : Int) :
    (run_transfer (buildBoneMapping S T) S T srcPose scale_factor start_frame end_frame).ops.length
      = (end_frame - start_frame + 1).toNat * (buildBoneMapping S T).length := by
  rw [transfer_ops_eq S T hS srcPose scale_factor start_frame end_frame]
  rw [List.length_flatMap]
  simp only [Function.comp_def, List.length_map]
  rw [sum_map_const, frameList_length]

lemma transfer_ops_values (S T : List String) (hS : S.Nodup)
    (srcPose : String → Int → PoseSample) (scale_factor : ℚ) (start_frame end_frame : Int) :
    ∀ op ∈ (run_transfer (buildBoneMapping S T) S T srcPose scale_factor start_frame end_frame).ops,
      op.location = scaleVec scale_factor (srcPose op.bone op.frame).location
      ∧ op.rotation_quaternion = (srcPose op.bone op.frame).rotation_quaternion
      ∧ op.scale = (srcPose op.bone op.frame).scale
      ∧ start_frame ≤ op.frame ∧ op.frame ≤ end_frame := by
  rw [transfer_ops_eq S T hS srcPose scale_factor start_frame end_frame]
  intro op hop
  rw [List.mem_flatMap] at hop
  obtain ⟨f, hf, hop⟩ := hop
  rw [List.mem_map] at hop
  obtain ⟨pair, hpair, rfl⟩ := hop
  obtain ⟨h2, h1, hT⟩ := mapping_entry S T hS pair hpair
  rw [frameList_mem] at hf
  refine ⟨?_, ?_, ?_, hf.1, hf.2⟩ <;> simp [mkTransferOp, h2]

lemma transfer_ops_count (S T : List String) (hS : S.Nodup)
    (srcPose : String → Int → PoseSample) (scale_factor : ℚ) (start_frame end_frame : Int)
    (f : Int) (hf : f ∈ frameList start_frame end_frame)
    (pair : String × String) (hpair : pair ∈ buildBoneMapping S T) :
    ((run_transfer (buildBoneMapping S T) S T srcPose scale_factor start_frame
        end_frame).ops.countP (fun op => op.frame == f && op.bone == pair.2)) = 1 := by
  rw [transfer_ops_eq S T hS srcPose scale_factor start_frame end_frame, countP_flatMap]
  have hblock : ∀ f' : Int,
      ((buildBoneMapping S T).map (mkTransferOp srcPose scale_factor f')).countP
          (fun op => op.frame == f && op.bone == pair.2)
        = if f' = f then 1 else 0 := by
    intro f'
    rw [List.countP_map]
    by_cases hf' : f' = f
    · subst hf'
      rw [if_pos rfl]
      obtain ⟨h2, h1, hT⟩ := mapping_entry S T hS pair hpair
      rw [buildBoneMapping_eq S T hS, List.countP_map]
      have hcong : ∀ n ∈ S.filter (fun n => decide (n ∈ T)),
          ((((fun op => op.frame == f' && op.bone == pair.2) ∘
              mkTransferOp srcPose scale_factor f') ∘ fun n => (n, n)) n = true)
            ↔ ((n == pair.2) = true) := by
        intro n _
        simp [mkTransferOp, Function.comp_def]
      rw [List.countP_congr hcong, ← List.count_eq_countP]
      refine List.count_eq_one_of_mem (hS.filter _) ?_
      rw [List.mem_filter, h2]
      exact ⟨h1, by simp [hT]⟩
    · rw [if_neg hf']
      refine List.countP_eq_zero.mpr ?_
      intro q _
      simp [mkTransferOp, hf']
  have hmap : ((frameList start_frame end_frame).map
      (fun f' => ((buildBoneMapping S T).map (mkTransferOp srcPose scale_factor f')).countP
        (fun op => op.frame == f && op.bone == pair.2)))
      = (frameList start_frame end_frame).map (fun f' => if f' = f then 1 else 0) :=
    List.map_congr_left (fun f' _ => hblock f')
  rw [hmap, sum_map_ite_count]
  exact List.count_eq_one_of_mem (frameList_nodup start_frame end_frame) hf

lemma batch_aux (outcome : String → FileOutcome) (continue_on_error : Bool) :
    ∀ files : List String,
      ((∀ r ∈ runBatch files outcome continue_on_error, r.2 = true)
        ↔ (∀ f ∈ attemptedFiles files outcome continue_on_error,
            outcome f = .success ∨ outcome f = .interrupt)) := by
  intro files
  induction files with
  | nil => simp [runBatch, attemptedFiles]
  | cons f rest ih =>
    cases h : outcome f with
    | success =>
      simp only [runBatch, attemptedFiles, h, List.forall_mem_cons]
      constructor
      · intro hc
        exact ⟨Or.inl trivial, ih.mp hc.2⟩
      · intro hc
        exact ⟨trivial, ih.mpr hc.2⟩
    | fail => simp [runBatch, attemptedFiles, h]
    | raiseExc => simp [runBatch, attemptedFiles, h]
    | interrupt => simp [runBatch, attemptedFiles, h]

lemma batchExitCode_iff (files : List String) (outcome : String → FileOutcome)
    (continue_on_error : Bool) :
    batchExitCode files outcome continue_on_error = 0
      ↔ ∀ f ∈ attemptedFiles files outcome continue_on_error,
          outcome f = .success ∨ outcome f = .interrupt := by
  have h1 : batchExitCode files outcome continue_on_error = 0
      ↔ successfulCount files outcome continue_on_error
          = (runBatch files outcome continue_on_error).length := by
    unfold batchExitCode
    split
    next h => simp [h]
    next h => simp [h]
  rw [h1]
  unfold successfulCount
  rw [List.countP_eq_length]
  simpa using batch_aux outcome continue_on_error files

lemma infix_head {α : Type} (x t : List α) : x <:+: x ++ t := (List.prefix_append x t).isInfix

lemma infix_lift {α : Type} (a : List α) {x y : List α} (h : x <:+: y) : x <:+: a ++ y :=
  h.trans (List.suffix_append a y).isInfix

lemma script_data_decomp (p : String) (sf : ℚ) (mf mb mm : Int) :
    (create_blender_script p sf mf mb mm).data
      = scriptChunk0.data ++ ((toString mf).data ++ (scriptChunk1.data ++ ((toString mb).data
        ++ (scriptChunk2.data ++ ((toString mm).data ++ (scriptChunk3.data ++ (p.data
        ++ (scriptChunk4.data ++ ((toString sf).data ++ scriptChunk5.data))))))))) := by
  simp [create_blender_script, String.data_append, List.append_assoc]

lemma chunk4_data : scriptChunk4.data = dquoteChar :: scriptChunk4tail.data := by
  have h : ("\x22").data = [dquoteChar] := by decide
  rw [scriptChunk4, String.data_append, h]
  rfl

lemma marker_suffix (mf mb mm : Int) :
    sourceFileMarker.data <:+ (scriptBeforePath mf mb mm).data := by
  have h3 : sourceFileMarker.data <:+ scriptChunk3.data := by
    rw [scriptChunk3, String.data_append]
    exact List.suffix_append scriptChunk3head.data sourceFileMarker.data
  have h : (scriptBeforePath mf mb mm).data
      = (scriptChunk0 ++ toString mf ++ scriptChunk1 ++ toString mb ++ scriptChunk2
          ++ toString mm).data ++ scriptChunk3.data := by
    rw [scriptBeforePath]
    rw [String.data_append]
  rw [h]
  exact h3.trans (List.suffix_append _ scriptChunk3.data)

lemma pathReadByHost_clean (p : String) (sf : ℚ) (h : pathSafeForRawString p) :
    pathReadByHost p sf = p.data := by
  unfold pathReadByHost scriptFromPath
  have hd : (p ++ scriptChunk4 ++ toString sf ++ scriptChunk5).data
      = p.data ++ dquoteChar
          :: (scriptChunk4tail.data ++ ((toString sf).data ++ scriptChunk5.data)) := by
    simp [String.data_append, List.append_assoc, chunk4_data]
  rw [hd]
  exact rawStringScan_clean p.data _ h

/-! ## Claim theorems -/

/-- C1: for every frame `f` in the resolved range `[start_frame, end_frame]`
(iterated in increasing order) and every mapped bone pair, the copy loop
performs exactly one transfer operation — `frame_count * |mapping|`
operations in total — each writing the target bone's location as
`scale_factor *` the source location component-wise while copying
rotation and scale exactly and keyframing all three channels at `f`
(a `TransferOp` records the three writes and the three
`keyframe_insert` calls of one loop body); after the loop the new
action's frame-range metadata is exactly `(start_frame, end_frame)`. -/
theorem transfer_loop_exact (S T : List String) (srcPose : String → Int → PoseSample)
    (scale_factor : ℚ) (start_frame end_frame : Int) (hS : S.Nodup) :
    (run_transfer (buildBoneMapping S T) S T srcPose scale_factor
        start_frame end_frame).ops.length
      = (end_frame - start_frame + 1).toNat * (buildBoneMapping S T).length
    ∧ (∀ f ∈ frameList start_frame end_frame, ∀ pair ∈ buildBoneMapping S T,
        ((run_transfer (buildBoneMapping S T) S T srcPose scale_factor start_frame
            end_frame).ops.countP (fun op => op.frame == f && op.bone == pair.2)) = 1)
    ∧ (∀ op ∈ (run_transfer (buildBoneMapping S T) S T srcPose scale_factor
          start_frame end_frame).ops,
        op.location = scaleVec scale_factor (srcPose op.bone op.frame).location
        ∧ op.rotation_quaternion = (srcPose op.bone op.frame).rotation_quaternion
        ∧ op.scale = (srcPose op.bone op.frame).scale
        ∧ start_frame ≤ op.frame ∧ op.frame ≤ end_frame)
    ∧ (run_transfer (buildBoneMapping S T) S T srcPose scale_factor
        start_frame end_frame).action_frame_range = (start_frame, end_frame) :=
  ⟨transfer_ops_length S T hS srcPose scale_factor start_frame end_frame,
   fun f hf pair hpair =>
     transfer_ops_count S T hS srcPose scale_factor start_frame end_frame f hf pair hpair,
   transfer_ops_values S T hS srcPose scale_factor start_frame end_frame,
   rfl⟩

/-- Witness for C1 at a concrete instance: three source bones (two of
them shared with the target), frames 1 to 3, scale 1/2. -/
theorem transfer_loop_exact_witness :
    demoSourceBones.Nodup
    ∧ ((run_transfer (buildBoneMapping demoSourceBones demoTargetBones) demoSourceBones
          demoTargetBones demoPose (1/2) 1 3).ops.length
        = ((3 : Int) - 1 + 1).toNat * (buildBoneMapping demoSourceBones demoTargetBones).length
      ∧ (∀ f ∈ frameList 1 3, ∀ pair ∈ buildBoneMapping demoSourceBones demoTargetBones,
          ((run_transfer (buildBoneMapping demoSourceBones demoTargetBones) demoSourceBones
              demoTargetBones demoPose (1/2) 1
              3).ops.countP (fun op => op.frame == f && op.bone == pair.2)) = 1)
      ∧ (∀ op ∈ (run_transfer (buildBoneMapping demoSourceBones demoTargetBones)
            demoSourceBones demoTargetBones demoPose (1/2) 1 3).ops,
          op.location = scaleVec (1/2) (demoPose op.bone op.frame).location
          ∧ op.rotation_quaternion = (demoPose op.bone op.frame).rotation_quaternion
          ∧ op.scale = (demoPose op.bone op.frame).scale
          ∧ 1 ≤ op.frame ∧ op.frame ≤ 3)
      ∧ (run_transfer (buildBoneMapping demoSourceBones demoTargetBones) demoSourceBones
          demoTargetBones demoPose (1/2) 1 3).action_frame_range = (1, 3)) :=
  ⟨by decide,
   transfer_loop_exact demoSourceBones demoTargetBones demoPose (1/2) 1 3 (by decide)⟩

/-- C2: the bone mapping's key set is exactly `S ∩ T`; every key names a
source-rig bone, every value a target-rig bone, and no name outside both
rigs appears as a key or a value (names present in only one rig are
skipped without error — they simply generate no entry). -/
theorem bone_mapping_intersection (S T : List String) (hS : S.Nodup) :
    (∀ k : String, k ∈ (buildBoneMapping S T).map Prod.fst ↔ (k ∈ S ∧ k ∈ T))
    ∧ (∀ pair ∈ buildBoneMapping S T,
        pair.1 ∈ S ∧ pair.1 ∈ T ∧ pair.2 ∈ S ∧ pair.2 ∈ T) :=
  ⟨fun k => mapping_mem_keys S T hS k,
   fun pair hpair => by
     obtain ⟨h2, h1, hT⟩ := mapping_entry S T hS pair hpair
     exact ⟨h1, hT, h2 ▸ h1, h2 ▸ hT⟩⟩

/-- Witness for C2 at a concrete instance: of the three source names,
exactly the two also present in the target become keys. -/
theorem bone_mapping_intersection_witness :
    demoSourceBones.Nodup
    ∧ ((∀ k : String, k ∈ (buildBoneMapping demoSourceBones demoTargetBones).map Prod.fst
          ↔ (k ∈ demoSourceBones ∧ k ∈ demoTargetBones))
      ∧ (∀ pair ∈ buildBoneMapping demoSourceBones demoTargetBones,
          pair.1 ∈ demoSourceBones ∧ pair.1 ∈ demoTargetBones
            ∧ pair.2 ∈ demoSourceBones ∧ pair.2 ∈ demoTargetBones)) :=
  ⟨by decide, bone_mapping_intersection demoSourceBones demoTargetBones (by decide)⟩

/-- C10: every mapping entry maps a bone name to itself, so only
identically named bones are paired; consequently the membership re-check
inside the copy loop is always satisfied and no mapped bone is skipped:
each frame iteration emits exactly one operation per mapping entry. -/
theorem bone_mapping_identity (S T : List String) (hS : S.Nodup) :
    (∀ pair ∈ buildBoneMapping S T, pair.2 = pair.1)
    ∧ (∀ pair ∈ buildBoneMapping S T, pair.2 ∈ T ∧ pair.1 ∈ S)
    ∧ (∀ (srcPose : String → Int → PoseSample) (scale_factor : ℚ) (frame : Int),
        (transferFrame (buildBoneMapping S T) S T srcPose scale_factor frame).length
          = (buildBoneMapping S T).length) :=
  ⟨fun pair hpair => (mapping_entry S T hS pair hpair).1,
   fun pair hpair => by
     obtain ⟨h2, h1, hT⟩ := mapping_entry S T hS pair hpair
     exact ⟨h2 ▸ hT, h1⟩,
   fun srcPose scale_factor frame => by
     rw [transferFrame_eq_map S T hS srcPose scale_factor frame, List.length_map]⟩

/-- Witness for C10 at a concrete instance. -/
theorem bone_mapping_identity_witness :
    demoSourceBones.Nodup
    ∧ ((∀ pair ∈ buildBoneMapping demoSourceBones demoTargetBones, pair.2 = pair.1)
      ∧ (∀ pair ∈ buildBoneMapping demoSourceBones demoTargetBones,
          pair.2 ∈ demoTargetBones ∧ pair.1 ∈ demoSourceBones)
      ∧ (∀ (srcPose : String → Int → PoseSample) (scale_factor : ℚ) (frame : Int),
          (transferFrame (buildBoneMapping demoSourceBones demoTargetBones) demoSourceBones
              demoTargetBones srcPose scale_factor frame).length
            = (buildBoneMapping demoSourceBones demoTargetBones).length)) :=
  ⟨by decide, bone_mapping_identity demoSourceBones demoTargetBones (by decide)⟩

/-- C3 counterexample: the claim says a frame count exactly equal to
`max_frames` (and a bone count exactly equal to `max_bones`) "passes
with only a warning", but the validation uses a strict `>`, so at
equality the run passes with no warning at all (shown here at the
source's default limits 10000 frames / 1000 bones). -/
theorem frame_validation_boundary_counterexample :
    validate_frame_count 10000 10000 = ⟨true, false⟩
    ∧ validate_frame_count 10000 10000 ≠ ⟨true, true⟩
    ∧ validate_bone_counts 1000 1000 1000 = ⟨true, false⟩
    ∧ validate_bone_counts 1000 1000 1000 ≠ ⟨true, true⟩ := by
  decide

/-- C3 (amended): a frame count up to and including `max_frames` passes
with no warning; a count strictly above `max_frames` and up to
`2 * max_frames` passes with a warning; a count exceeding
`2 * max_frames` (e.g. `2 * max_frames + 1`) fails with
`FrameRangeTooLarge`; the same doubling law holds for the two bone
counts against `max_bones` (failure `TooManyBones`). -/
theorem frame_validation_doubling (max_frames max_bones : Int)
    (frame_count n_source n_target : Int)
    (hmf : 0 < max_frames) (hmb : 0 < max_bones) :
    (frame_count ≤ max_frames → validate_frame_count frame_count max_frames = ⟨true, false⟩)
    ∧ (max_frames < frame_count → frame_count ≤ 2 * max_frames →
        validate_frame_count frame_count max_frames = ⟨true, true⟩)
    ∧ (2 * max_frames < frame_count →
        validate_frame_count frame_count max_frames = ⟨false, true⟩)
    ∧ (n_source ≤ max_bones → n_target ≤ max_bones →
        validate_bone_counts n_source n_target max_bones = ⟨true, false⟩)
    ∧ ((max_bones < n_source ∨ max_bones < n_target) → n_source ≤ 2 * max_bones →
        n_target ≤ 2 * max_bones →
        validate_bone_counts n_source n_target max_bones = ⟨true, true⟩)
    ∧ ((2 * max_bones < n_source ∨ 2 * max_bones < n_target) →
        validate_bone_counts n_source n_target max_bones = ⟨false, true⟩) := by
  refine ⟨?_, ?_, ?_, ?_, ?_, ?_⟩
  · intro h
    unfold validate_frame_count
    rw [if_neg (by omega)]
  · intro h1 h2
    unfold validate_frame_count
    rw [if_pos (by omega), if_neg (by omega)]
  · intro h
    unfold validate_frame_count
    rw [if_pos (by omega), if_pos (by omega)]
  · intro h1 h2
    unfold validate_bone_counts
    rw [if_neg (by omega)]
  · intro h1 h2 h3
    unfold validate_bone_counts
    rw [if_pos (by omega), if_neg (by omega)]
  · intro h
    unfold validate_bone_counts
    rw [if_pos (by omega), if_pos (by omega)]

/-- Witness for the amended C3 at the source's default limits: 15000
frames warn, 20001 frames fail; 1500 target bones warn, 2001 fail. -/
theorem frame_validation_doubling_witness :
    (0 : Int) < 10000 ∧ (0 : Int) < 1000
    ∧ validate_frame_count 10000 10000 = ⟨true, false⟩
    ∧ validate_frame_count 15000 10000 = ⟨true, true⟩
    ∧ validate_frame_count 20001 10000 = ⟨false, true⟩
    ∧ validate_bone_counts 1000 1000 1000 = ⟨true, false⟩
    ∧ validate_bone_counts 1000 1500 1000 = ⟨true, true⟩
    ∧ validate_bone_counts 1000 2001 1000 = ⟨false, true⟩ := by
  have h10 := frame_validation_doubling 10000 1000 10000 1000 1000 (by decide) (by decide)
  have h15 := frame_validation_doubling 10000 1000 15000 1000 1500 (by decide) (by decide)
  have h20 := frame_validation_doubling 10000 1000 20001 1000 2001 (by decide) (by decide)
  refine ⟨by decide, by decide, ?_, ?_, ?_, ?_, ?_, ?_⟩
  · exact h10.1 (by decide)
  · exact h15.2.1 (by decide) (by decide)
  · exact h20.2.2.1 (by decide)
  · exact h10.2.2.2.1 (by decide) (by decide)
  · exact h15.2.2.2.2.1 (Or.inr (by decide)) (by decide) (by decide)
  · exact h20.2.2.2.2.2 (Or.inr (by decide))

/-- C4: for a host process that exits naturally, the supervisor
classifies the run as a success iff the exit code is 0 and the sentinel
`RESULT: SUCCESS` occurs in the captured standard output; in particular
a run that exits 0 without printing the sentinel is classified failed. -/
theorem supervisor_classification (returncode : Int) (stdout : List Char)
    (outputExists : Bool) :
    (superviseOutcome (RunOutcome.natural returncode stdout) outputExists).success = true
      ↔ (returncode = 0 ∧ successSentinel <:+: stdout) := by
  unfold superviseOutcome classify_run
  by_cases h0 : returncode = 0
  · by_cases hs : successSentinel <:+: stdout
    · simp [h0, hs]
    · simp [h0, hs]
  · simp [h0]

/-- C5 counterexample: a run killed for a wall-clock timeout (or for
exceeding the memory limit) fails, yet the supervisor's early `return
False` skips the output-file cleanup: with the output file present
(`outputExists = true`) nothing is deleted, contradicting the claim that
every failing run deletes its output copy. -/
theorem failed_run_cleanup_counterexample :
    (superviseOutcome RunOutcome.timedOut true).success = false
    ∧ (superviseOutcome RunOutcome.timedOut true).outputDeleted = false
    ∧ (superviseOutcome RunOutcome.memoryKilled true).success = false
    ∧ (superviseOutcome RunOutcome.memoryKilled true).outputDeleted = false := by
  decide

/-- C5 (amended): only a run that exits naturally and is then classified
failed has its existing output copy deleted; runs terminated by the
supervisor for timeout or memory leave the output file in place. -/
theorem failed_run_cleanup (outputExists : Bool) :
    superviseOutcome RunOutcome.timedOut outputExists = ⟨false, false⟩
    ∧ superviseOutcome RunOutcome.memoryKilled outputExists = ⟨false, false⟩
    ∧ (∀ (returncode : Int) (stdout : List Char),
        (superviseOutcome (RunOutcome.natural returncode stdout) outputExists).success = false →
        (superviseOutcome (RunOutcome.natural returncode stdout) outputExists).outputDeleted
          = outputExists) := by
  refine ⟨rfl, rfl, ?_⟩
  intro returncode stdout h
  show (if classify_run returncode stdout then (⟨true, false⟩ : SupervisionResult)
      else ⟨false, outputExists⟩).outputDeleted = outputExists
  replace h : (if classify_run returncode stdout then (⟨true, false⟩ : SupervisionResult)
      else ⟨false, outputExists⟩).success = false := h
  by_cases hc : classify_run returncode stdout
  · rw [if_pos hc] at h
    exact absurd h (by simp)
  · rw [if_neg hc]

/-- Witness for the amended C5: a natural exit with code 0 but no
sentinel in the output is a failure, and the existing output copy is
deleted. -/
theorem failed_run_cleanup_witness :
    (superviseOutcome (RunOutcome.natural 0 []) true).success = false
    ∧ (superviseOutcome (RunOutcome.natural 0 []) true).outputDeleted = true :=
  ⟨by decide, (failed_run_cleanup true).2.2 0 [] (by decide)⟩

/-- C6: for a batch `[A, B, C]` in which `A` succeeds and `B` fails:
with continue-on-error off the result mapping is exactly
`{A ↦ success, B ↦ fail}` and `C` is never attempted; with
continue-on-error on (and `C` running to completion) all three files are
attempted and appear in the result mapping; a `KeyboardInterrupt` during
a file stops the batch immediately whichever way the flag is set. -/
theorem batch_stop_policy (A B C : String) (outcome : String → FileOutcome)
    (hAC : A ≠ C) (hBC : B ≠ C)
    (hA : outcome A = FileOutcome.success) (hB : outcome B = FileOutcome.fail) :
    (runBatch [A, B, C] outcome false = [(A, true), (B, false)]
      ∧ attemptedFiles [A, B, C] outcome false = [A, B]
      ∧ C ∉ attemptedFiles [A, B, C] outcome false)
    ∧ ((outcome C = FileOutcome.success ∨ outcome C = FileOutcome.fail) →
        (attemptedFiles [A, B, C] outcome true = [A, B, C]
          ∧ (runBatch [A, B, C] outcome true).map Prod.fst = [A, B, C]))
    ∧ (∀ g : String → FileOutcome, g A = FileOutcome.success →
        g B = FileOutcome.interrupt → ∀ continue_on_error : Bool,
        runBatch [A, B, C] g continue_on_error = [(A, true)]
          ∧ attemptedFiles [A, B, C] g continue_on_error = [A, B]) := by
  refine ⟨⟨?_, ?_, ?_⟩, ?_, ?_⟩
  · simp [runBatch, hA, hB]
  · simp [attemptedFiles, hA, hB]
  · simp [attemptedFiles, hA, hB, Ne.symm hAC, Ne.symm hBC]
  · intro hC
    cases hC with
    | inl h => simp [runBatch, attemptedFiles, hA, hB, h]
    | inr h => simp [runBatch, attemptedFiles, hA, hB, h]
  · intro g hgA hgB continue_on_error
    constructor
    · simp [runBatch, hgA, hgB]
    · simp [attemptedFiles, hgA, hgB]

/-- Witness for C6 at a concrete batch with a concrete outcome map. -/
theorem batch_stop_policy_witness :
    demoBatchOutcome ("a.blend") = FileOutcome.success
    ∧ demoBatchOutcome ("b.blend") = FileOutcome.fail
    ∧ ((runBatch ["a.blend", "b.blend", "c.blend"] demoBatchOutcome false
          = [("a.blend", true), ("b.blend", false)]
        ∧ attemptedFiles ["a.blend", "b.blend", "c.blend"] demoBatchOutcome false
            = ["a.blend", "b.blend"]
        ∧ ("c.blend") ∉ attemptedFiles ["a.blend", "b.blend", "c.blend"] demoBatchOutcome false)
      ∧ ((demoBatchOutcome ("c.blend") = FileOutcome.success
            ∨ demoBatchOutcome ("c.blend") = FileOutcome.fail) →
          (attemptedFiles ["a.blend", "b.blend", "c.blend"] demoBatchOutcome true
              = ["a.blend", "b.blend", "c.blend"]
            ∧ (runBatch ["a.blend", "b.blend", "c.blend"] demoBatchOutcome true).map Prod.fst
                = ["a.blend", "b.blend", "c.blend"]))
      ∧ (∀ g : String → FileOutcome, g ("a.blend") = FileOutcome.success →
          g ("b.blend") = FileOutcome.interrupt → ∀ continue_on_error : Bool,
          runBatch ["a.blend", "b.blend", "c.blend"] g continue_on_error
              = [("a.blend", true)]
            ∧ attemptedFiles ["a.blend", "b.blend", "c.blend"] g continue_on_error
                = ["a.blend", "b.blend"])) :=
  ⟨by decide, by decide,
   batch_stop_policy ("a.blend") ("b.blend") ("c.blend") demoBatchOutcome
     (by decide) (by decide) (by decide) (by decide)⟩

/-- C7 counterexample: the claim that the exit code is 0 iff every
attempted file succeeded — and that a partial batch is never reported
fully successful — fails when a `KeyboardInterrupt` arrives during a
file: here `b.blend` is attempted but interrupted (so not recorded in
`results`), `c.blend` is never attempted, and yet the process exits 0
because every *recorded* result succeeded. -/
theorem batch_exit_code_counterexample :
    batchExitCode ["a.blend", "b.blend", "c.blend"] demoInterruptOutcome false = 0
    ∧ attemptedFiles ["a.blend", "b.blend", "c.blend"] demoInterruptOutcome false
        = ["a.blend", "b.blend"]
    ∧ demoInterruptOutcome ("b.blend") ≠ FileOutcome.success
    ∧ runBatch ["a.blend", "b.blend", "c.blend"] demoInterruptOutcome false
        = [("a.blend", true)] := by
  decide

/-- C7 (amended): the exit code is 0 iff every attempted file either
succeeded or was the file cut short by the user's interrupt; in
particular a batch stopped early by a *failure* never exits 0, but a
batch interrupted after only successes exits 0 even though it is
partial. -/
theorem batch_exit_code (files : List String) (outcome : String → FileOutcome)
    (continue_on_error : Bool) :
    (batchExitCode files outcome continue_on_error = 0
      ↔ ∀ f ∈ attemptedFiles files outcome continue_on_error,
          outcome f = FileOutcome.success ∨ outcome f = FileOutcome.interrupt)
    ∧ (∀ f ∈ attemptedFiles files outcome continue_on_error,
        (outcome f = FileOutcome.fail ∨ outcome f = FileOutcome.raiseExc) →
        batchExitCode files outcome continue_on_error = 1) := by
  refine ⟨batchExitCode_iff files outcome continue_on_error, ?_⟩
  intro f hf hfail
  by_cases h : batchExitCode files outcome continue_on_error = 0
  · obtain hgood := (batchExitCode_iff files outcome continue_on_error).mp h f hf
    cases hfail with
    | inl hx => cases hgood with
      | inl hy => rw [hx] at hy; exact absurd hy (by simp)
      | inr hy => rw [hx] at hy; exact absurd hy (by simp)
    | inr hx => cases hgood with
      | inl hy => rw [hx] at hy; exact absurd hy (by simp)
      | inr hy => rw [hx] at hy; exact absurd hy (by simp)
  · unfold batchExitCode at h ⊢
    by_cases hc : successfulCount files outcome continue_on_error
        = (runBatch files outcome continue_on_error).length
    · exact absurd (if_pos hc) h
    · exact if_neg hc

/-- C9: a failure of memory measurement never fails the run: the
in-process `check_memory` is a no-op when introspection is unavailable
(the `ImportError` path), and the supervisor's polling loop swallows
`NoSuchProcess` / `AccessDenied` and keeps polling. -/
theorem memory_check_no_op (max_mb : ℚ) :
    check_memory none max_mb = Except.ok ()
    ∧ poll_memory MemPollReading.noSuchProcess max_mb = PollDecision.continuePolling
    ∧ poll_memory MemPollReading.accessDenied max_mb = PollDecision.continuePolling :=
  ⟨rfl, rfl, rfl⟩

set_option maxRecDepth 100000 in
/-- C8 counterexample: the builder splices the source path into the raw
string literal `source_file = r"…"` without any escaping, so for a path
containing a double quote the value the host's parser reads back is not
the path that was given (here it reads `a`, not `a"b.blend`): the claim
that the path is escaped/quoted safely for every source path is false. -/
theorem script_path_quoting_counterexample :
    pathReadByHost ("a\x22b.blend") (7/10) ≠ ("a\x22b.blend").data
    ∧ pathReadByHost ("a\x22b.blend") (7/10) = ("a").data := by
  constructor
  · decide
  · decide

/-- C8 (amended): `create_blender_script` is a pure function of its five
arguments (it is a Lean `def`, so determinism and absence of side
effects hold by construction); the rendered values of all five
parameters occur verbatim in the produced job body; the script splits as
the text before the path (ending in the literal-opening marker
`source_file = r"`) followed by the path and the rest; and the path
value read back by the host equals the path given, *provided* the path
contains no double quote and no backslash — not for every path. -/
theorem script_builder_embedding (source_blend : String) (scale_factor : ℚ)
    (max_frames max_bones max_memory_mb : Int) :
    ((toString max_frames).data <:+:
        (create_blender_script source_blend scale_factor max_frames max_bones
          max_memory_mb).data)
    ∧ ((toString max_bones).data <:+:
        (create_blender_script source_blend scale_factor max_frames max_bones
          max_memory_mb).data)
    ∧ ((toString max_memory_mb).data <:+:
        (create_blender_script source_blend scale_factor max_frames max_bones
          max_memory_mb).data)
    ∧ (source_blend.data <:+:
        (create_blender_script source_blend scale_factor max_frames max_bones
          max_memory_mb).data)
    ∧ ((toString scale_factor).data <:+:
        (create_blender_script source_blend scale_factor max_frames max_bones
          max_memory_mb).data)
    ∧ (create_blender_script source_blend scale_factor max_frames max_bones max_memory_mb
        = scriptBeforePath max_frames max_bones max_memory_mb
            ++ scriptFromPath source_blend scale_factor)
    ∧ (sourceFileMarker.data <:+
        (scriptBeforePath max_frames max_bones max_memory_mb).data)
    ∧ (pathSafeForRawString source_blend →
        pathReadByHost source_blend scale_factor = source_blend.data) := by
  have hd := script_data_decomp source_blend scale_factor max_frames max_bones max_memory_mb
  refine ⟨?_, ?_, ?_, ?_, ?_,
    script_decomposition source_blend scale_factor max_frames max_bones max_memory_mb,
    marker_suffix max_frames max_bones max_memory_mb,
    pathReadByHost_clean source_blend scale_factor⟩
  · rw [hd]
    exact infix_lift _ (infix_head _ _)
  · rw [hd]
    exact infix_lift _ (infix_lift _ (infix_lift _ (infix_head _ _)))
  · rw [hd]
    exact infix_lift _ (infix_lift _ (infix_lift _ (infix_lift _ (infix_lift _
      (infix_head _ _)))))
  · rw [hd]
    exact infix_lift _ (infix_lift _ (infix_lift _ (infix_lift _ (infix_lift _
      (infix_lift _ (infix_lift _ (infix_head _ _)))))))
  · rw [hd]
    exact infix_lift _ (infix_lift _ (infix_lift _ (infix_lift _ (infix_lift _
      (infix_lift _ (infix_lift _ (infix_lift _ (infix_lift _ (infix_head _ _)))))))))

/-- Witness for the amended C8 at a concrete quote-free, backslash-free
path and the source's default limits: the host reads back exactly the
given path. -/
theorem script_builder_embedding_witness :
    pathSafeForRawString ("/tmp/walk.blend")
    ∧ pathReadByHost ("/tmp/walk.blend") (7/10) = ("/tmp/walk.blend").data :=
  ⟨by decide,
   (script_builder_embedding ("/tmp/walk.blend") (7/10) 10000 1000 4096).2.2.2.2.2.2.2
     (by decide)⟩
